import Mathlib

/-!
Verification development for the Production-Ready-DevOps-Projects repository.

Part I embeds the two provisioning shell scripts (`setup-eks.sh`,
`aws-setup.sh`) as sequences of steps over an abstract world of AWS
resources and external-tool outcomes.

Part II embeds the two Express web applications (`app.js` of the ECS
project with a `/db-check` route, and `app.js` of the CI-CD project
without it) as pure request-to-response functions, together with the
`server.js` startup configuration.
-/

namespace DevOps

/-! ## Part I: provisioning scripts -/

/-- The named AWS resources whose creation the scripts guard with an
existence check, plus the ECS task definition (whose registration in
`aws-setup.sh` step 7 is not guarded). -/
inductive Resource where
  | eksCluster
  | spotNodegroup
  | ecrRepo
  | iamRole
  | ecsCluster
  | securityGroup
  | logGroup
  | ecsService
  | iamUser
  | taskDef
  deriving DecidableEq, Repr, Fintype

/-- External-tool invocations a script performs. `query r` is the
describe/get existence check for resource `r`; `create r` the
corresponding create call (for the security group this includes the
ingress-rule authorization run in the same branch). The remaining
constructors are unconditional or warn-tolerated calls. -/
inductive Op where
  | query : Resource → Op
  | create : Resource → Op
  -- aws-setup.sh unconditional calls
  | stsGetCallerIdentity
  | checkJq
  | getEcrUri
  | getRoleArn
  | findDefaultVpc
  | describeSubnets
  | createAccessKey
  -- setup-eks.sh calls
  | requireTools
  | kmsCreateKey
  | updateClusterLogging
  | associateOidc
  | createAlbServiceAccount
  | helmRepoAdd
  | helmRepoUpdate
  | helmUpgradeAlb
  | createAutoscalerServiceAccount
  | applyAutoscalerManifest
  | setAutoscalerEnv
  | annotateAutoscaler
  | kubectlWaitNodes
  | kubectlGetPods
  deriving DecidableEq, Repr

/-- The environment a script runs against: which resources already
exist, and whether each external invocation succeeds (exit status 0).
For `Op.findDefaultVpc`, success also covers the explicit
`exit 1` when the default-VPC lookup prints "None". -/
structure World where
  present : Resource → Bool
  opOk : Op → Bool

/-- One step of a script.
`guarded r` is the idempotent pattern `if <query r>; then skip; else <create r>; fi`
(the query runs as an `if` condition, so its own failure never aborts the
script; the create runs under `set -e`).
`always o` is an unconditional invocation under `set -e` (fatal on failure).
`tolerated o` is an invocation whose failure is swallowed by
`|| warn ...`, `|| true`, or `|| echo failed`. -/
inductive Step where
  | guarded : Resource → Step
  | always : Op → Step
  | tolerated : Op → Step
  deriving DecidableEq, Repr

/-- Execute one step: the list of invocations it performs and whether the
script may continue afterwards. -/
def runStep (w : World) : Step → List Op × Bool
  | .guarded r =>
      if w.present r then ([.query r], true)
      else ([.query r, .create r], w.opOk (.create r))
  | .always o => ([o], w.opOk o)
  | .tolerated o => ([o], true)

/-- Execute a script: invocations in order, stopping at the first fatal
failure; the Bool is `true` iff the script exits with status 0. -/
def runSteps (w : World) : List Step → List Op × Bool
  | [] => ([], true)
  | s :: rest =>
      if (runStep w s).2 then
        ((runStep w s).1 ++ (runSteps w rest).1, (runSteps w rest).2)
      else ((runStep w s).1, false)

/-- `aws-setup.sh` as its ordered list of steps:
AWS CLI configuration check, jq availability, then steps 1-9
(ECR repository, ECS execution role, ECS cluster, VPC/subnet lookup,
security group, CloudWatch log group, task-definition registration,
ECS service, GitHub Actions IAM user and its access key). -/
def awsSetupSteps : List Step :=
  [ .always .stsGetCallerIdentity
  , .always .checkJq
  , .guarded .ecrRepo
  , .always .getEcrUri
  , .guarded .iamRole
  , .always .getRoleArn
  , .guarded .ecsCluster
  , .always .findDefaultVpc
  , .always .describeSubnets
  , .guarded .securityGroup
  , .guarded .logGroup
  , .always (.create .taskDef)
  , .guarded .ecsService
  , .guarded .iamUser
  , .tolerated .createAccessKey ]

/-- The optional features of `setup-eks.sh` (CLI flags `--kms`,
`--no-alb`, `--no-autoscaler`, `--no-cloudwatch`). -/
structure EksConfig where
  kmsCreate : Bool
  alb : Bool
  autoscaler : Bool
  cwLogging : Bool

/-- The defaults of `setup-eks.sh`: KMS off, ALB controller, cluster
autoscaler and CloudWatch logging on. -/
def defaultEksConfig : EksConfig :=
  { kmsCreate := false, alb := true, autoscaler := true, cwLogging := true }

/-- `setup-eks.sh` as its ordered list of steps: CLI tool checks,
optional KMS key creation, guarded cluster and spot-nodegroup creation,
optional CloudWatch logging (warn-tolerated), OIDC association
(warn-tolerated), optional ALB controller install, optional cluster
autoscaler install, and the post-install checks. -/
def setupEksSteps (c : EksConfig) : List Step :=
  [ .always .requireTools ]
  ++ (if c.kmsCreate then [Step.always .kmsCreateKey] else [])
  ++ [ .guarded .eksCluster
     , .guarded .spotNodegroup ]
  ++ (if c.cwLogging then [Step.tolerated .updateClusterLogging] else [])
  ++ [ .tolerated .associateOidc ]
  ++ (if c.alb then
        [ Step.tolerated .createAlbServiceAccount
        , Step.tolerated .helmRepoAdd
        , Step.always .helmRepoUpdate
        , Step.always .helmUpgradeAlb ]
      else [])
  ++ (if c.autoscaler then
        [ Step.tolerated .createAutoscalerServiceAccount
        , Step.tolerated .applyAutoscalerManifest
        , Step.tolerated .setAutoscalerEnv
        , Step.tolerated .annotateAutoscaler ]
      else [])
  ++ [ .tolerated .kubectlWaitNodes
     , .always .kubectlGetPods ]

/-- A world in which every resource already exists and every external
invocation succeeds: a full re-run against pre-existing infrastructure. -/
def allPresentWorld : World :=
  { present := fun _ => true, opOk := fun _ => true }

/-- A world in which every resource except the ECR repository exists,
and creating the ECR repository fails. -/
def ecrAbsentWorld : World :=
  { present := fun r => if r = Resource.ecrRepo then false else true
  , opOk := fun o => if o = Op.create Resource.ecrRepo then false else true }

/-- A world in which every resource exists and every invocation succeeds
except the CloudWatch cluster-logging update. -/
def cwFailWorld : World :=
  { present := fun _ => true
  , opOk := fun o => if o = Op.updateClusterLogging then false else true }

/-! ## Part II: the Express web applications

Two `app.js` files exist: the app of the ECS project (with a PostgreSQL
pool and a `/db-check` route) and the app of the CI-CD project (without
either).
Both register GET routes, then a catch-all 404 handler, then a terminal
error-handling middleware. `server.js` reads PORT and ENVIRONMENT. -/

/-- A JSON value as produced by `res.json`. Numeric fields whose values
are environmental floats (uptimes, memory, load averages) are abstracted
as integers; no claim inspects their numeric value. -/
inductive Json where
  | str : String → Json
  | num : Int → Json
  | arr : List Json → Json
  | obj : List (String × Json) → Json

/-- First binding of a key in a JSON object field list. -/
def lookupFields : List (String × Json) → String → Option Json
  | [], _ => none
  | (k₀, v) :: rest, k => if k₀ = k then some v else lookupFields rest k

/-- Field access on a JSON object. -/
def Json.lookup : Json → String → Option Json
  | .obj fields, k => lookupFields fields k
  | _, _ => none

/-- The environment variables the apps and server read. -/
structure Env where
  PORT : Option String
  ENVIRONMENT : Option String
  DATABASE_URL : Option String
  deriving DecidableEq, Repr

/-- JavaScript `process.env.X || d` for a string default: `undefined`
and the empty string are falsy. -/
def jsOrDefault (v : Option String) (d : String) : String :=
  match v with
  | some s => if s = "" then d else s
  | none => d

/-- The line `const ENVIRONMENT = process.env.ENVIRONMENT || ...` with
the string default development. -/
def environmentOf (e : Env) : String :=
  jsOrDefault e.ENVIRONMENT "development"

/-- A JavaScript string-or-number value. -/
inductive JsVal where
  | str : String → JsVal
  | num : Int → JsVal
  deriving DecidableEq, Repr

/-- `const PORT = process.env.PORT || 3001;` in `server.js` (a set,
nonempty PORT stays a string; otherwise the number 3001). -/
def listenPort (e : Env) : JsVal :=
  match e.PORT with
  | some s => if s = "" then .num 3001 else .str s
  | none => .num 3001

/-- The ambient system values a handler reads: clock strings, process
and OS information. -/
structure SysCtx where
  nowIso : String
  nowLocale : String
  processUptime : Int
  hostname : String
  platform : String
  arch : String
  nodeVersion : String
  totalmem : Int
  freemem : Int
  cpuCount : Int
  osUptime : Int
  loadavg : List Int
  deriving DecidableEq, Repr

/-- Request-scoped context: the system values, an injected exception
(`some message` when the handler body throws), and the answer of the
PostgreSQL pool to `SELECT NOW()` for `/db-check`. -/
structure ReqCtx where
  sys : SysCtx
  fault : Option String
  dbNow : Except String String
  deriving Repr

/-- An HTTP request as the dispatchers see it: method and path. -/
structure Request where
  method : String
  path : String
  deriving DecidableEq, Repr

/-- A response body: `res.send` of a string, or `res.json` of a value. -/
inductive Body where
  | text : String → Body
  | json : Json → Body

/-- An HTTP response: status code and body. -/
structure Response where
  status : Nat
  body : Body

/-- The content type Express attaches: string sends are served as HTML,
json sends as JSON. -/
def Response.contentType : Response → String
  | ⟨_, .text _⟩ => "text/html; charset=utf-8"
  | ⟨_, .json _⟩ => "application/json; charset=utf-8"

/-- Whether the response body is JSON (produced by `res.json`). -/
def Response.isJson : Response → Bool
  | ⟨_, .json _⟩ => true
  | ⟨_, .text _⟩ => false

/-- The body text of a `res.send` response (empty for JSON bodies). -/
def Response.bodyText : Response → String
  | ⟨_, .text s⟩ => s
  | ⟨_, .json _⟩ => ""

/-- Field access on a JSON response body. -/
def Response.field (r : Response) (k : String) : Option Json :=
  match r.body with
  | .json j => j.lookup k
  | .text _ => none

/-- `s` contains `pat` as a substring. -/
def strContainsProp (s pat : String) : Prop :=
  ∃ pre post, s = pre ++ pat ++ post

/-- The app title appearing in the title tag and h1 of the home page
template. -/
def pageTitle : String := "🚀 My AWS DevOps Web App"

/-- Home template up to the content of the title tag. -/
def homeHtmlHead : String :=
  "\n      <!DOCTYPE html>\n      <html lang=\"en\">\n      <head>\n        <meta charset=\"UTF-8\">\n        <meta name=\"viewport\" content=\"width=device-width, initial-scale=1.0\">\n        <title>"

/-- Home template from the title tag to the h1 content. -/
def homeHtmlStyle : String :=
  "</title>\n        <style>\n          body \x7b font-family: Arial, sans-serif; line-height: 1.6; margin: 0; padding: 20px; background-color: #f4f4f4; color: #333; \x7d\n          .container \x7b max-width: 800px; margin: 0 auto; background: white; padding: 20px; border-radius: 8px; box-shadow: 0 2px 4px rgba(0,0,0,0.1); \x7d\n          h1 \x7b color: #2c3e50; \x7d\n          .info-box \x7b background: #f8f9fa; border-left: 4px solid #3498db; padding: 15px; margin: 20px 0; \x7d\n        </style>\n      </head>\n      <body>\n        <div class=\"container\">\n          <h1>"

/-- Home template from the h1 to the Environment interpolation. -/
def homeHtmlIntro : String :=
  "</h1>\n          <p>This app was deployed automatically to AWS ECS!</p>\n          \n          <div class=\"info-box\">\n            <p><strong>Environment:</strong> "

/-- Home template between the Environment and current-time values. -/
def homeHtmlTime : String :=
  "</p>\n            <p><strong>Current time:</strong> "

/-- Home template between the current-time and container-id values. -/
def homeHtmlContainer : String :=
  "</p>\n            <p><strong>Container ID:</strong> "

/-- Home template between the container-id and uptime values. -/
def homeHtmlUptime : String :=
  "</p>\n            <p><strong>Server uptime:</strong> "

/-- Home template between the uptime and platform values. -/
def homeHtmlPlatform : String :=
  " seconds</p>\n            <p><strong>Platform:</strong> "

/-- Endpoint list and closing markup of the home page of the ECS app
(it links `/db-check`). -/
def homeHtmlLinksDb : String :=
  "</p>\n          </div>\n          \n          <h2>Endpoints:</h2>\n          <ul>\n            <li><a href=\"/health\">Health Check</a></li>\n            <li><a href=\"/api/info\">API Info</a></li>\n            <li><a href=\"/api/system\">System Info</a></li>\n            <li><a href=\"/db-check\">Database Check</a></li>\n          </ul>\n        </div>\n      </body>\n      </html>\n    "

/-- Endpoint list and closing markup of the home page of the CI-CD app. -/
def homeHtmlLinks : String :=
  "</p>\n          </div>\n          \n          <h2>Endpoints:</h2>\n          <ul>\n            <li><a href=\"/health\">Health Check</a></li>\n            <li><a href=\"/api/info\">API Info</a></li>\n            <li><a href=\"/api/system\">System Info</a></li>\n          </ul>\n        </div>\n      </body>\n      </html>\n    "

/-- The interpolated home-page template (`withDbLink` selects the endpoint
list of the ECS variant). `processUptime` already models
`Math.floor(process.uptime())`. -/
def homeHtml (withDbLink : Bool) (ENVIRONMENT : String) (c : SysCtx) : String :=
  homeHtmlHead ++ pageTitle ++ homeHtmlStyle ++ pageTitle ++ homeHtmlIntro
    ++ ENVIRONMENT ++ homeHtmlTime ++ c.nowLocale ++ homeHtmlContainer
    ++ c.hostname ++ homeHtmlUptime ++ toString c.processUptime
    ++ homeHtmlPlatform ++ c.platform ++ " " ++ c.arch
    ++ (if withDbLink then homeHtmlLinksDb else homeHtmlLinks)

/-- The `/` handler: its own try/catch sends the page, or the plain-text
500 Internal Server Error text if rendering throws. -/
def homeResponse (withDbLink : Bool) (ENVIRONMENT : String) (c : ReqCtx) : Response :=
  match c.fault with
  | some _ => { status := 500, body := .text "Internal Server Error" }
  | none => { status := 200, body := .text (homeHtml withDbLink ENVIRONMENT c.sys) }

/-- Body of the `/health` handler (identical in both apps). -/
def healthJson (ENVIRONMENT : String) (c : SysCtx) : Json :=
  .obj [ ("status", .str "healthy")
       , ("timestamp", .str c.nowIso)
       , ("environment", .str ENVIRONMENT)
       , ("uptime", .num c.processUptime) ]

/-- Body of the `/api/info` handler (identical in both apps). -/
def apiInfoJson (ENVIRONMENT : String) (c : SysCtx) : Json :=
  .obj [ ("app", .str "my-aws-webapp")
       , ("version", .str "1.0.0")
       , ("environment", .str ENVIRONMENT)
       , ("timestamp", .str c.nowIso)
       , ("nodeVersion", .str c.nodeVersion) ]

/-- Body of the `/api/system` handler (identical in both apps). -/
def apiSystemJson (c : SysCtx) : Json :=
  .obj [ ("hostname", .str c.hostname)
       , ("platform", .str c.platform)
       , ("architecture", .str c.arch)
       , ("totalMemory", .num c.totalmem)
       , ("freeMemory", .num c.freemem)
       , ("cpus", .num c.cpuCount)
       , ("uptime", .num c.osUptime)
       , ("loadavg", .arr (c.loadavg.map Json.num)) ]

/-- The catch-all 404 envelope; `endpoints` is the literal
`availableEndpoints` array of the handler. -/
def notFoundJson (endpoints : List String) (path : String) : Json :=
  .obj [ ("error", .str "Endpoint not found")
       , ("path", .str path)
       , ("availableEndpoints", .arr (endpoints.map Json.str)) ]

/-- The terminal error-handling middleware (identical in both apps):
500 with a generic message in production, the message of the error
otherwise. -/
def errorHandler (ENVIRONMENT : String) (errMessage : String) : Response :=
  { status := 500
  , body := .json (.obj
      [ ("error", .str "Internal server error")
      , ("message", .str (if ENVIRONMENT = "production"
                          then "Something went wrong" else errMessage)) ]) }

/-- Express forwards an exception thrown in a handler without its own
try/catch to the terminal error middleware. -/
def guardFault (ENVIRONMENT : String) (c : ReqCtx) (r : Response) : Response :=
  match c.fault with
  | some m => errorHandler ENVIRONMENT m
  | none => r

/-- The `/db-check` handler of the ECS app: its try/catch answers with
the `SELECT NOW()` result of the pool or a 500 JSON carrying the
message of the error. -/
def dbCheckHandler (c : ReqCtx) : Response :=
  match c.fault with
  | some m =>
      { status := 500
      , body := .json (.obj [("status", .str "error"), ("message", .str m)]) }
  | none =>
      match c.dbNow with
      | .ok t =>
          { status := 200
          , body := .json (.obj [("status", .str "connected"), ("dbTime", .str t)]) }
      | .error m =>
          { status := 500
          , body := .json (.obj [("status", .str "error"), ("message", .str m)]) }

/-- The `availableEndpoints` array of the 404 handler of the ECS app, which
is also the list of paths its dispatcher registers. -/
def ecsRoutes : List String := ["/", "/health", "/api/info", "/api/system", "/db-check"]

/-- The `availableEndpoints` array of the 404 handler of the CI-CD app, which
is also the list of paths its dispatcher registers. -/
def ciRoutes : List String := ["/", "/health", "/api/info", "/api/system"]

/-- The `app.js` of the ECS project: GET routes `/`, `/health`, `/api/info`,
`/api/system`, `/db-check`, then the 404 handler. -/
def ecsApp (e : Env) (c : ReqCtx) (req : Request) : Response :=
  let ENVIRONMENT := environmentOf e
  if req.method = "GET" ∧ req.path = "/" then
    homeResponse true ENVIRONMENT c
  else if req.method = "GET" ∧ req.path = "/health" then
    guardFault ENVIRONMENT c { status := 200, body := .json (healthJson ENVIRONMENT c.sys) }
  else if req.method = "GET" ∧ req.path = "/api/info" then
    guardFault ENVIRONMENT c { status := 200, body := .json (apiInfoJson ENVIRONMENT c.sys) }
  else if req.method = "GET" ∧ req.path = "/api/system" then
    guardFault ENVIRONMENT c { status := 200, body := .json (apiSystemJson c.sys) }
  else if req.method = "GET" ∧ req.path = "/db-check" then
    dbCheckHandler c
  else
    { status := 404, body := .json (notFoundJson ecsRoutes req.path) }

/-- The `app.js` of the CI-CD project: GET routes `/`, `/health`,
`/api/info`, `/api/system`, then the 404 handler (no `/db-check`). -/
def ciApp (e : Env) (c : ReqCtx) (req : Request) : Response :=
  let ENVIRONMENT := environmentOf e
  if req.method = "GET" ∧ req.path = "/" then
    homeResponse false ENVIRONMENT c
  else if req.method = "GET" ∧ req.path = "/health" then
    guardFault ENVIRONMENT c { status := 200, body := .json (healthJson ENVIRONMENT c.sys) }
  else if req.method = "GET" ∧ req.path = "/api/info" then
    guardFault ENVIRONMENT c { status := 200, body := .json (apiInfoJson ENVIRONMENT c.sys) }
  else if req.method = "GET" ∧ req.path = "/api/system" then
    guardFault ENVIRONMENT c { status := 200, body := .json (apiSystemJson c.sys) }
  else
    { status := 404, body := .json (notFoundJson ciRoutes req.path) }

/-- A concrete system context for witnesses. -/
def sampleSys : SysCtx :=
  { nowIso := "2026-01-01T00:00:00.000Z"
  , nowLocale := "1/1/2026, 12:00:00 AM"
  , processUptime := 42
  , hostname := "host1"
  , platform := "linux"
  , arch := "x64"
  , nodeVersion := "v18.0.0"
  , totalmem := 1024
  , freemem := 512
  , cpuCount := 2
  , osUptime := 1000
  , loadavg := [0, 0, 0] }

/-- A concrete fault-free request context with a reachable database. -/
def sampleCtx : ReqCtx :=
  { sys := sampleSys, fault := none, dbNow := .ok "2026-01-01" }

/-- A request context in which the handler body throws `m`. -/
def faultCtx (m : String) : ReqCtx :=
  { sys := sampleSys, fault := some m, dbNow := .ok "2026-01-01" }

/-- An environment with no variables set. -/
def emptyEnv : Env :=
  { PORT := none, ENVIRONMENT := none, DATABASE_URL := none }

/-- An environment with ENVIRONMENT=production. -/
def prodEnv : Env :=
  { PORT := none, ENVIRONMENT := some "production", DATABASE_URL := none }

/-! ### Lemmas about script runs -/

theorem runSteps_append (w : World) (l₁ l₂ : List Step) :
    runSteps w (l₁ ++ l₂) =
      if (runSteps w l₁).2 then
        ((runSteps w l₁).1 ++ (runSteps w l₂).1, (runSteps w l₂).2)
      else runSteps w l₁ := by
  induction l₁ with
  | nil => simp [runSteps]
  | cons s rest ih =>
      by_cases hs : (runStep w s).2
      · by_cases hr : (runSteps w rest).2
        · simp [runSteps, hs, hr, ih]
        · simp [runSteps, hs, hr, ih]
      · simp [runSteps, hs]

/-- If the resource of a guarded step is absent and its create fails, the
run aborts exactly there: the invocations are those of the successful
prefix followed by the query and failing create of that step, and the exit status is
nonzero. -/
theorem runSteps_abort_at (w : World) (l₁ l₂ : List Step) (r : Resource)
    (h1 : (runSteps w l₁).2 = true) (h2 : w.present r = false)
    (h3 : w.opOk (Op.create r) = false) :
    runSteps w (l₁ ++ Step.guarded r :: l₂) =
      ((runSteps w l₁).1 ++ [Op.query r, Op.create r], false) := by
  rw [runSteps_append, h1]
  simp [runSteps, runStep, h2, h3]

/-- If a create invocation for `r` appears in a run whose step list
contains no unconditional or tolerated `create r`, then `r` was absent:
only a guarded step can have emitted it. -/
theorem present_false_of_create_mem (w : World) (l : List Step) (r : Resource)
    (ha : Step.always (Op.create r) ∉ l) (ht : Step.tolerated (Op.create r) ∉ l)
    (h : Op.create r ∈ (runSteps w l).1) :
    w.present r = false := by
  induction l with
  | nil => simp [runSteps] at h
  | cons s rest ih =>
      have ha' : Step.always (Op.create r) ∉ rest := fun hm => ha (List.mem_cons_of_mem _ hm)
      have ht' : Step.tolerated (Op.create r) ∉ rest := fun hm => ht (List.mem_cons_of_mem _ hm)
      have hhead : Op.create r ∈ (runStep w s).1 → w.present r = false := by
        intro hmem
        cases s with
        | guarded r' =>
            by_cases hp : w.present r'
            · simp [runStep, hp] at hmem
            · simp [runStep, hp] at hmem
              cases hmem
              simpa using hp
        | always o =>
            simp [runStep] at hmem
            cases hmem
            exact absurd (List.mem_cons_self _ _) ha
        | tolerated o =>
            simp [runStep] at hmem
            cases hmem
            exact absurd (List.mem_cons_self _ _) ht
      by_cases hs : (runStep w s).2
      · rw [runSteps, if_pos hs] at h
        rcases List.mem_append.mp h with hmem | hmem
        · exact hhead hmem
        · exact ih ha' ht' hmem
      · rw [runSteps, if_neg hs] at h
        exact hhead h

/-- No step of `setup-eks.sh` is an unconditional or tolerated create:
the only create invocations it can emit come from its guarded steps. -/
theorem setupEks_no_unguarded_create (c : EksConfig) (r : Resource) :
    Step.always (Op.create r) ∉ setupEksSteps c ∧
    Step.tolerated (Op.create r) ∉ setupEksSteps c := by
  rcases c with ⟨k, a, u, l⟩
  cases k <;> cases a <;> cases u <;> cases l <;>
    simp [setupEksSteps]

/-! ### Lemmas about the web applications -/

theorem homeResponse_status_ne_404 (b : Bool) (E : String) (c : ReqCtx) :
    (homeResponse b E c).status ≠ 404 := by
  rcases hf : c.fault with _ | m <;> simp [homeResponse, hf]

theorem guardFault_status_ne_404 (E : String) (c : ReqCtx) (r : Response)
    (h : r.status ≠ 404) : (guardFault E c r).status ≠ 404 := by
  rcases hf : c.fault with _ | m <;> simp [guardFault, hf, errorHandler, h]

theorem dbCheckHandler_status_ne_404 (c : ReqCtx) :
    (dbCheckHandler c).status ≠ 404 := by
  rcases hf : c.fault with _ | m
  · rcases hd : c.dbNow with m | t <;> simp [dbCheckHandler, hf, hd]
  · simp [dbCheckHandler, hf]

theorem ecsApp_not404_of_mem (e : Env) (c : ReqCtx) (p : String)
    (hp : p ∈ ecsRoutes) : (ecsApp e c ⟨"GET", p⟩).status ≠ 404 := by
  fin_cases hp
  · simpa [ecsApp] using homeResponse_status_ne_404 true (environmentOf e) c
  · simpa [ecsApp] using guardFault_status_ne_404 (environmentOf e) c _ (by simp)
  · simpa [ecsApp] using guardFault_status_ne_404 (environmentOf e) c _ (by simp)
  · simpa [ecsApp] using guardFault_status_ne_404 (environmentOf e) c _ (by simp)
  · simpa [ecsApp] using dbCheckHandler_status_ne_404 c

theorem ciApp_not404_of_mem (e : Env) (c : ReqCtx) (p : String)
    (hp : p ∈ ciRoutes) : (ciApp e c ⟨"GET", p⟩).status ≠ 404 := by
  fin_cases hp
  · simpa [ciApp] using homeResponse_status_ne_404 false (environmentOf e) c
  · simpa [ciApp] using guardFault_status_ne_404 (environmentOf e) c _ (by simp)
  · simpa [ciApp] using guardFault_status_ne_404 (environmentOf e) c _ (by simp)
  · simpa [ciApp] using guardFault_status_ne_404 (environmentOf e) c _ (by simp)

theorem ecsApp_404_of_not_mem (e : Env) (c : ReqCtx) (m p : String)
    (h : ¬(m = "GET" ∧ p ∈ ecsRoutes)) :
    ecsApp e c ⟨m, p⟩ = ⟨404, .json (notFoundJson ecsRoutes p)⟩ := by
  have h1 : ¬(m = "GET" ∧ p = "/") := fun hc => h ⟨hc.1, by simp [ecsRoutes, hc.2]⟩
  have h2 : ¬(m = "GET" ∧ p = "/health") := fun hc => h ⟨hc.1, by simp [ecsRoutes, hc.2]⟩
  have h3 : ¬(m = "GET" ∧ p = "/api/info") := fun hc => h ⟨hc.1, by simp [ecsRoutes, hc.2]⟩
  have h4 : ¬(m = "GET" ∧ p = "/api/system") := fun hc => h ⟨hc.1, by simp [ecsRoutes, hc.2]⟩
  have h5 : ¬(m = "GET" ∧ p = "/db-check") := fun hc => h ⟨hc.1, by simp [ecsRoutes, hc.2]⟩
  simp [ecsApp, h1, h2, h3, h4, h5]

theorem ciApp_404_of_not_mem (e : Env) (c : ReqCtx) (m p : String)
    (h : ¬(m = "GET" ∧ p ∈ ciRoutes)) :
    ciApp e c ⟨m, p⟩ = ⟨404, .json (notFoundJson ciRoutes p)⟩ := by
  have h1 : ¬(m = "GET" ∧ p = "/") := fun hc => h ⟨hc.1, by simp [ciRoutes, hc.2]⟩
  have h2 : ¬(m = "GET" ∧ p = "/health") := fun hc => h ⟨hc.1, by simp [ciRoutes, hc.2]⟩
  have h3 : ¬(m = "GET" ∧ p = "/api/info") := fun hc => h ⟨hc.1, by simp [ciRoutes, hc.2]⟩
  have h4 : ¬(m = "GET" ∧ p = "/api/system") := fun hc => h ⟨hc.1, by simp [ciRoutes, hc.2]⟩
  simp [ciApp, h1, h2, h3, h4]

theorem string_append_assoc (a b c : String) : a ++ b ++ c = a ++ (b ++ c) := by
  rcases a with ⟨a⟩
  rcases b with ⟨b⟩
  rcases c with ⟨c⟩
  show String.mk (a ++ b ++ c) = String.mk (a ++ (b ++ c))
  rw [List.append_assoc]

/-! ### Claim theorems about the provisioning scripts -/

/-- C1: for every provisioning-script step whose resource already exists,
a re-run does not invoke the create operation of that step, and a full re-run
against fully pre-existing resources (with all external invocations
succeeding) exits with status 0, for `aws-setup.sh` and for
`setup-eks.sh` under every flag configuration. -/
theorem rerun_skips_creates_and_exits_zero (w : World)
    (hpres : ∀ r, w.present r = true) (hok : ∀ o, w.opOk o = true) :
    (∀ r, r ≠ Resource.taskDef → Op.create r ∉ (runSteps w awsSetupSteps).1) ∧
    (runSteps w awsSetupSteps).2 = true ∧
    (∀ c r, Op.create r ∉ (runSteps w (setupEksSteps c)).1) ∧
    (∀ c, (runSteps w (setupEksSteps c)).2 = true) := by
  refine ⟨?_, ?_, ?_, ?_⟩
  · intro r hr
    simp [awsSetupSteps, runSteps, runStep, hpres, hok, hr]
  · simp [awsSetupSteps, runSteps, runStep, hpres, hok]
  · intro c r
    rcases c with ⟨k, a, u, l⟩
    cases k <;> cases a <;> cases u <;> cases l <;>
      simp [setupEksSteps, runSteps, runStep, hpres, hok]
  · intro c
    rcases c with ⟨k, a, u, l⟩
    cases k <;> cases a <;> cases u <;> cases l <;>
      simp [setupEksSteps, runSteps, runStep, hpres, hok]

/-- Witness for C1 at the concrete all-present, all-succeeding world. -/
theorem rerun_skips_creates_witness :
    Op.create Resource.ecrRepo ∉ (runSteps allPresentWorld awsSetupSteps).1 ∧
    (runSteps allPresentWorld awsSetupSteps).2 = true ∧
    (runSteps allPresentWorld (setupEksSteps defaultEksConfig)).2 = true :=
  ⟨(rerun_skips_creates_and_exits_zero allPresentWorld (fun _ => rfl) (fun _ => rfl)).1
      Resource.ecrRepo (by decide),
   (rerun_skips_creates_and_exits_zero allPresentWorld (fun _ => rfl) (fun _ => rfl)).2.1,
   (rerun_skips_creates_and_exits_zero allPresentWorld (fun _ => rfl) (fun _ => rfl)).2.2.2
      defaultEksConfig⟩

/-- C2 is false as stated: step 7 of `aws-setup.sh` registers the ECS
task definition unconditionally. Even in a world where every resource
already exists, the registration (a create operation) is invoked, and no
existence query for the task definition is ever made. -/
theorem registerTaskDef_unguarded :
    Op.create Resource.taskDef ∈ (runSteps allPresentWorld awsSetupSteps).1 ∧
    Op.query Resource.taskDef ∉ (runSteps allPresentWorld awsSetupSteps).1 := by
  decide

/-- C2 (amended): every guarded step of either script invokes its create
operation only when its resource is absent, and a failing create in a
guarded step aborts the run exactly at that step — the invocations are
the successful prefix plus the query and create of that step, and nothing of
any later step executes. Unconditional steps (the task-definition
registration) and tolerated steps are exempt. -/
theorem guarded_step_contract :
    (∀ w r, Step.guarded r ∈ awsSetupSteps →
      Op.create r ∈ (runSteps w awsSetupSteps).1 → w.present r = false) ∧
    (∀ w c r, Step.guarded r ∈ setupEksSteps c →
      Op.create r ∈ (runSteps w (setupEksSteps c)).1 → w.present r = false) ∧
    (∀ w l₁ r l₂, awsSetupSteps = l₁ ++ Step.guarded r :: l₂ →
      (runSteps w l₁).2 = true → w.present r = false →
      w.opOk (Op.create r) = false →
      runSteps w awsSetupSteps =
        ((runSteps w l₁).1 ++ [Op.query r, Op.create r], false)) ∧
    (∀ w c l₁ r l₂, setupEksSteps c = l₁ ++ Step.guarded r :: l₂ →
      (runSteps w l₁).2 = true → w.present r = false →
      w.opOk (Op.create r) = false →
      runSteps w (setupEksSteps c) =
        ((runSteps w l₁).1 ++ [Op.query r, Op.create r], false)) := by
  have key : ∀ r : Resource, Step.guarded r ∈ awsSetupSteps →
      Step.always (Op.create r) ∉ awsSetupSteps ∧
      Step.tolerated (Op.create r) ∉ awsSetupSteps := by decide
  refine ⟨?_, ?_, ?_, ?_⟩
  · intro w r hg h
    exact present_false_of_create_mem w _ r (key r hg).1 (key r hg).2 h
  · intro w c r _ h
    exact present_false_of_create_mem w _ r
      (setupEks_no_unguarded_create c r).1 (setupEks_no_unguarded_create c r).2 h
  · intro w l₁ r l₂ hdec h1 h2 h3
    rw [hdec]
    exact runSteps_abort_at w l₁ l₂ r h1 h2 h3
  · intro w c l₁ r l₂ hdec h1 h2 h3
    rw [hdec]
    exact runSteps_abort_at w l₁ l₂ r h1 h2 h3

/-- Witness for the amended C2: with the ECR repository absent and its
creation failing, `aws-setup.sh` stops right after the failing create. -/
theorem guarded_step_contract_witness :
    runSteps ecrAbsentWorld awsSetupSteps =
      ([Op.stsGetCallerIdentity, Op.checkJq,
        Op.query Resource.ecrRepo, Op.create Resource.ecrRepo], false) := by
  have h := guarded_step_contract.2.2.1 ecrAbsentWorld
    [Step.always Op.stsGetCallerIdentity, Step.always Op.checkJq]
    Resource.ecrRepo
    [ Step.always Op.getEcrUri
    , Step.guarded Resource.iamRole
    , Step.always Op.getRoleArn
    , Step.guarded Resource.ecsCluster
    , Step.always Op.findDefaultVpc
    , Step.always Op.describeSubnets
    , Step.guarded Resource.securityGroup
    , Step.guarded Resource.logGroup
    , Step.always (Op.create Resource.taskDef)
    , Step.guarded Resource.ecsService
    , Step.guarded Resource.iamUser
    , Step.tolerated Op.createAccessKey ]
    (by decide) (by decide) (by decide) (by decide)
  exact h.trans (by decide)

/-- C8: failure of the optional CloudWatch cluster-logging step does not
abort `setup-eks.sh` — with every resource present and every other
invocation succeeding, the run still performs every subsequent step and
exits with status 0, whatever the outcome of the logging update. -/
theorem cwLogging_failure_nonfatal (w : World)
    (hpres : ∀ r, w.present r = true)
    (hok : ∀ o, o ≠ Op.updateClusterLogging → w.opOk o = true) :
    runSteps w (setupEksSteps defaultEksConfig) =
      ([Op.requireTools, Op.query Resource.eksCluster,
        Op.query Resource.spotNodegroup, Op.updateClusterLogging,
        Op.associateOidc, Op.createAlbServiceAccount, Op.helmRepoAdd,
        Op.helmRepoUpdate, Op.helmUpgradeAlb,
        Op.createAutoscalerServiceAccount, Op.applyAutoscalerManifest,
        Op.setAutoscalerEnv, Op.annotateAutoscaler, Op.kubectlWaitNodes,
        Op.kubectlGetPods], true) := by
  simp [setupEksSteps, defaultEksConfig, runSteps, runStep, hpres, hok]

/-- Witness for C8 at the concrete world where the CloudWatch logging
update fails and everything else succeeds. -/
theorem cwLogging_failure_nonfatal_witness :
    cwFailWorld.opOk Op.updateClusterLogging = false ∧
    (runSteps cwFailWorld (setupEksSteps defaultEksConfig)).2 = true :=
  ⟨by decide,
   by rw [cwLogging_failure_nonfatal cwFailWorld (fun _ => rfl)
       (fun o h => by simp [cwFailWorld, h])]⟩

/-! ### Claim theorems about the web applications -/

/-- C3: every GET /health request whose handling completes normally is
answered with status 200 and a JSON body whose status field equals
"healthy", in both apps. -/
theorem health_returns_healthy (e : Env) (c : ReqCtx) (hf : c.fault = none) :
    (ecsApp e c ⟨"GET", "/health"⟩).status = 200 ∧
    (ecsApp e c ⟨"GET", "/health"⟩).field "status" = some (.str "healthy") ∧
    (ciApp e c ⟨"GET", "/health"⟩).status = 200 ∧
    (ciApp e c ⟨"GET", "/health"⟩).field "status" = some (.str "healthy") := by
  simp [ecsApp, ciApp, guardFault, hf, healthJson, Response.field,
    Json.lookup, lookupFields]

/-- Witness for C3 at a concrete environment and request context. -/
theorem health_returns_healthy_witness :
    (ecsApp emptyEnv sampleCtx ⟨"GET", "/health"⟩).status = 200 ∧
    (ecsApp emptyEnv sampleCtx ⟨"GET", "/health"⟩).field "status" =
      some (.str "healthy") :=
  ⟨(health_returns_healthy emptyEnv sampleCtx rfl).1,
   (health_returns_healthy emptyEnv sampleCtx rfl).2.1⟩

/-- C4: in both apps a response is a 404 exactly when the request is not
a GET for a registered route, and every 404 carries the JSON envelope
whose availableEndpoints array is exactly the list of routes that app
serves. -/
theorem unknown_route_404 (e : Env) (c : ReqCtx) (req : Request) :
    ((ecsApp e c req).status = 404 ↔ ¬(req.method = "GET" ∧ req.path ∈ ecsRoutes)) ∧
    (¬(req.method = "GET" ∧ req.path ∈ ecsRoutes) →
      ecsApp e c req = ⟨404, .json (notFoundJson ecsRoutes req.path)⟩) ∧
    ((ciApp e c req).status = 404 ↔ ¬(req.method = "GET" ∧ req.path ∈ ciRoutes)) ∧
    (¬(req.method = "GET" ∧ req.path ∈ ciRoutes) →
      ciApp e c req = ⟨404, .json (notFoundJson ciRoutes req.path)⟩) := by
  obtain ⟨m, p⟩ := req
  refine ⟨⟨fun h404 hreg => ?_, fun hnot => ?_⟩, fun hnot => ecsApp_404_of_not_mem e c m p hnot,
         ⟨fun h404 hreg => ?_, fun hnot => ?_⟩, fun hnot => ciApp_404_of_not_mem e c m p hnot⟩
  · obtain ⟨hm, hp⟩ := hreg
    subst hm
    exact ecsApp_not404_of_mem e c p hp h404
  · rw [ecsApp_404_of_not_mem e c m p hnot]
  · obtain ⟨hm, hp⟩ := hreg
    subst hm
    exact ciApp_not404_of_mem e c p hp h404
  · rw [ciApp_404_of_not_mem e c m p hnot]

/-- Witness for C4 at a concrete unregistered path. -/
theorem unknown_route_404_witness :
    ecsApp emptyEnv sampleCtx ⟨"GET", "/nope"⟩ =
      ⟨404, .json (notFoundJson ecsRoutes "/nope")⟩ :=
  (unknown_route_404 emptyEnv sampleCtx ⟨"GET", "/nope"⟩).2.1 (by simp [ecsRoutes])

/-- C5 counterexample: the CI-CD app registers no /db-check route, so
the claim that the demo app serves all five paths fails there: GET
/db-check falls through to its 404 handler. -/
theorem ciApp_dbCheck_is_404 :
    ciApp emptyEnv sampleCtx ⟨"GET", "/db-check"⟩ =
      ⟨404, .json (notFoundJson ciRoutes "/db-check")⟩ :=
  ciApp_404_of_not_mem emptyEnv sampleCtx "GET" "/db-check" (by simp [ciRoutes])

/-- C5 (amended): the surface of the ECS app comprises exactly GET /,
/health, /api/info, /api/system and /db-check, each answered 200 with
its fixed-shape body (static HTML for /, JSON otherwise) when handling
completes normally and the database answers; the surface of the CI-CD
app comprises exactly the first four, and GET /db-check reaches its 404
handler instead. -/
theorem http_surface (e : Env) (c : ReqCtx) (t : String)
    (hf : c.fault = none) (hd : c.dbNow = .ok t) :
    ecsApp e c ⟨"GET", "/"⟩ = ⟨200, .text (homeHtml true (environmentOf e) c.sys)⟩ ∧
    ecsApp e c ⟨"GET", "/health"⟩ = ⟨200, .json (healthJson (environmentOf e) c.sys)⟩ ∧
    ecsApp e c ⟨"GET", "/api/info"⟩ = ⟨200, .json (apiInfoJson (environmentOf e) c.sys)⟩ ∧
    ecsApp e c ⟨"GET", "/api/system"⟩ = ⟨200, .json (apiSystemJson c.sys)⟩ ∧
    ecsApp e c ⟨"GET", "/db-check"⟩ =
      ⟨200, .json (.obj [("status", .str "connected"), ("dbTime", .str t)])⟩ ∧
    (∀ req, ¬(req.method = "GET" ∧ req.path ∈ ecsRoutes) →
      (ecsApp e c req).status = 404) ∧
    ciApp e c ⟨"GET", "/"⟩ = ⟨200, .text (homeHtml false (environmentOf e) c.sys)⟩ ∧
    ciApp e c ⟨"GET", "/health"⟩ = ⟨200, .json (healthJson (environmentOf e) c.sys)⟩ ∧
    ciApp e c ⟨"GET", "/api/info"⟩ = ⟨200, .json (apiInfoJson (environmentOf e) c.sys)⟩ ∧
    ciApp e c ⟨"GET", "/api/system"⟩ = ⟨200, .json (apiSystemJson c.sys)⟩ ∧
    (ciApp e c ⟨"GET", "/db-check"⟩).status = 404 := by
  refine ⟨?_, ?_, ?_, ?_, ?_, ?_, ?_, ?_, ?_, ?_, ?_⟩
  · simp [ecsApp, homeResponse, hf]
  · simp [ecsApp, guardFault, hf]
  · simp [ecsApp, guardFault, hf]
  · simp [ecsApp, guardFault, hf]
  · simp [ecsApp, dbCheckHandler, hf, hd]
  · rintro ⟨m, p⟩ h
    rw [ecsApp_404_of_not_mem e c m p h]
  · simp [ciApp, homeResponse, hf]
  · simp [ciApp, guardFault, hf]
  · simp [ciApp, guardFault, hf]
  · simp [ciApp, guardFault, hf]
  · rw [ciApp_404_of_not_mem e c "GET" "/db-check" (by simp [ciRoutes])]

/-- Witness for the amended C5 at a concrete environment and context. -/
theorem http_surface_witness :
    ecsApp emptyEnv sampleCtx ⟨"GET", "/db-check"⟩ =
      ⟨200, .json (.obj [("status", .str "connected"),
                         ("dbTime", .str "2026-01-01")])⟩ ∧
    (ciApp emptyEnv sampleCtx ⟨"GET", "/db-check"⟩).status = 404 :=
  ⟨(http_surface emptyEnv sampleCtx "2026-01-01" rfl rfl).2.2.2.2.1,
   (http_surface emptyEnv sampleCtx "2026-01-01" rfl rfl).2.2.2.2.2.2.2.2.2.2⟩

/-- C6: GET / (when rendering succeeds) is answered 200, with a content
type containing "html" and a body containing the app title string, in
both apps. -/
theorem home_html_title (e : Env) (c : ReqCtx) (hf : c.fault = none) :
    (ecsApp e c ⟨"GET", "/"⟩).status = 200 ∧
    strContainsProp (ecsApp e c ⟨"GET", "/"⟩).contentType "html" ∧
    strContainsProp ((ecsApp e c ⟨"GET", "/"⟩).bodyText) pageTitle ∧
    (ciApp e c ⟨"GET", "/"⟩).status = 200 ∧
    strContainsProp (ciApp e c ⟨"GET", "/"⟩).contentType "html" ∧
    strContainsProp ((ciApp e c ⟨"GET", "/"⟩).bodyText) pageTitle := by
  have hecs : ecsApp e c ⟨"GET", "/"⟩ =
      ⟨200, .text (homeHtml true (environmentOf e) c.sys)⟩ := by
    simp [ecsApp, homeResponse, hf]
  have hci : ciApp e c ⟨"GET", "/"⟩ =
      ⟨200, .text (homeHtml false (environmentOf e) c.sys)⟩ := by
    simp [ciApp, homeResponse, hf]
  have hct : strContainsProp "text/html; charset=utf-8" "html" :=
    ⟨"text/", "; charset=utf-8", by decide⟩
  have hbody : ∀ b E, strContainsProp (homeHtml b E c.sys) pageTitle := by
    intro b E
    refine ⟨homeHtmlHead,
      homeHtmlStyle ++ pageTitle ++ homeHtmlIntro ++ E ++ homeHtmlTime
        ++ c.sys.nowLocale ++ homeHtmlContainer ++ c.sys.hostname
        ++ homeHtmlUptime ++ toString c.sys.processUptime ++ homeHtmlPlatform
        ++ c.sys.platform ++ " " ++ c.sys.arch
        ++ (if b then homeHtmlLinksDb else homeHtmlLinks), ?_⟩
    simp only [homeHtml, string_append_assoc]
  exact ⟨by rw [hecs], by rw [hecs]; exact hct, by rw [hecs]; exact hbody true _,
         by rw [hci], by rw [hci]; exact hct, by rw [hci]; exact hbody false _⟩

/-- Witness for C6 at a concrete environment and context. -/
theorem home_html_title_witness :
    (ecsApp emptyEnv sampleCtx ⟨"GET", "/"⟩).status = 200 ∧
    strContainsProp ((ecsApp emptyEnv sampleCtx ⟨"GET", "/"⟩).bodyText) pageTitle :=
  ⟨(home_html_title emptyEnv sampleCtx rfl).1,
   (home_html_title emptyEnv sampleCtx rfl).2.2.1⟩

/-- C7 counterexample: when the / handler throws, its own catch answers
500 with the plain-text body Internal Server Error — not a JSON body as
the claim requires of every handler. -/
theorem home_catch_sends_text :
    (ecsApp emptyEnv (faultCtx "boom") ⟨"GET", "/"⟩).status = 500 ∧
    (ecsApp emptyEnv (faultCtx "boom") ⟨"GET", "/"⟩).isJson = false := by
  refine ⟨?_, ?_⟩ <;>
    simp [ecsApp, homeResponse, faultCtx, Response.isJson]

/-- C7 (amended): an exception thrown during any route handler is caught
(by the handler's own try/catch or the terminal error middleware) and
converted to a status-500 response; every handler except / produces a
JSON 500, while the / handler's catch sends the plain-text body
Internal Server Error. -/
theorem handler_exception_500 (e : Env) (c : ReqCtx) (m : String)
    (hf : c.fault = some m) :
    (∀ p, p ∈ ecsRoutes → (ecsApp e c ⟨"GET", p⟩).status = 500) ∧
    (∀ p, p ∈ ecsRoutes → p ≠ "/" → (ecsApp e c ⟨"GET", p⟩).isJson = true) ∧
    (ecsApp e c ⟨"GET", "/"⟩).body = .text "Internal Server Error" ∧
    (∀ p, p ∈ ciRoutes → (ciApp e c ⟨"GET", p⟩).status = 500) ∧
    (∀ p, p ∈ ciRoutes → p ≠ "/" → (ciApp e c ⟨"GET", p⟩).isJson = true) ∧
    (ciApp e c ⟨"GET", "/"⟩).body = .text "Internal Server Error" := by
  refine ⟨?_, ?_, ?_, ?_, ?_, ?_⟩
  · intro p hp
    fin_cases hp <;>
      simp [ecsApp, homeResponse, guardFault, errorHandler, dbCheckHandler, hf]
  · intro p hp hne
    fin_cases hp <;>
      simp_all [ecsApp, guardFault, errorHandler, dbCheckHandler, hf, Response.isJson]
  · simp [ecsApp, homeResponse, hf]
  · intro p hp
    fin_cases hp <;>
      simp [ciApp, homeResponse, guardFault, errorHandler, hf]
  · intro p hp hne
    fin_cases hp <;>
      simp_all [ciApp, guardFault, errorHandler, hf, Response.isJson]
  · simp [ciApp, homeResponse, hf]

/-- Witness for the amended C7: a concrete thrown error on /health is
answered by the JSON 500 of the error middleware. -/
theorem handler_exception_500_witness :
    (ecsApp emptyEnv (faultCtx "boom") ⟨"GET", "/health"⟩).status = 500 ∧
    (ecsApp emptyEnv (faultCtx "boom") ⟨"GET", "/health"⟩).isJson = true :=
  ⟨(handler_exception_500 emptyEnv (faultCtx "boom") "boom" rfl).1
      "/health" (by simp [ecsRoutes]),
   (handler_exception_500 emptyEnv (faultCtx "boom") "boom" rfl).2.1
      "/health" (by simp [ecsRoutes]) (by simp)⟩

/-- C9: with ENVIRONMENT=production, the 500 JSON of the error middleware
response is identical for any two thrown errors and its message field is
the fixed string Something went wrong, so the error's content does not
flow to the client; likewise at the app level for a fault on /health. -/
theorem prod_error_message_constant (e : Env)
    (hprod : e.ENVIRONMENT = some "production") (m₁ m₂ : String) :
    errorHandler (environmentOf e) m₁ = errorHandler (environmentOf e) m₂ ∧
    (errorHandler (environmentOf e) m₁).field "message" =
      some (.str "Something went wrong") ∧
    ecsApp e (faultCtx m₁) ⟨"GET", "/health"⟩ =
      ecsApp e (faultCtx m₂) ⟨"GET", "/health"⟩ := by
  have hE : environmentOf e = "production" := by
    simp [environmentOf, jsOrDefault, hprod]
  refine ⟨?_, ?_, ?_⟩ <;>
    simp [errorHandler, hE, Response.field, Json.lookup, lookupFields,
      ecsApp, guardFault, faultCtx]

/-- Witness for C9 with two distinct concrete errors. -/
theorem prod_error_message_constant_witness :
    errorHandler (environmentOf prodEnv) "disk on fire" =
      errorHandler (environmentOf prodEnv) "password=hunter2" ∧
    (errorHandler (environmentOf prodEnv) "disk on fire").field "message" =
      some (.str "Something went wrong") :=
  ⟨(prod_error_message_constant prodEnv rfl "disk on fire" "password=hunter2").1,
   (prod_error_message_constant prodEnv rfl "disk on fire" "password=hunter2").2.1⟩

/-- C10: with PORT unset the server listens on port 3001, and with
ENVIRONMENT unset every endpoint that reports an environment field
reports development, in both apps. -/
theorem default_port_and_environment (e : Env) (c : ReqCtx)
    (hp : e.PORT = none) (he : e.ENVIRONMENT = none) (hf : c.fault = none) :
    listenPort e = JsVal.num 3001 ∧
    environmentOf e = "development" ∧
    (ecsApp e c ⟨"GET", "/health"⟩).field "environment" =
      some (.str "development") ∧
    (ecsApp e c ⟨"GET", "/api/info"⟩).field "environment" =
      some (.str "development") ∧
    (ciApp e c ⟨"GET", "/health"⟩).field "environment" =
      some (.str "development") ∧
    (ciApp e c ⟨"GET", "/api/info"⟩).field "environment" =
      some (.str "development") := by
  refine ⟨?_, ?_, ?_, ?_, ?_, ?_⟩ <;>
    simp [listenPort, hp, environmentOf, jsOrDefault, he, ecsApp, ciApp,
      guardFault, hf, healthJson, apiInfoJson, Response.field, Json.lookup,
      lookupFields]

/-- Witness for C10 at the empty environment. -/
theorem default_port_and_environment_witness :
    listenPort emptyEnv = JsVal.num 3001 ∧
    (ecsApp emptyEnv sampleCtx ⟨"GET", "/health"⟩).field "environment" =
      some (.str "development") :=
  ⟨(default_port_and_environment emptyEnv sampleCtx rfl rfl rfl).1,
   (default_port_and_environment emptyEnv sampleCtx rfl rfl rfl).2.2.1⟩

end DevOps
